import Mathlib

set_option maxRecDepth 8000

namespace MediRouteSaver

/-! Shallow embedding of the core pipeline of `src/app.py`:
graph construction and route extraction (`assign_journeys`), courier-round
consolidation (`update_courier_rounds`) and travel-time aggregation
(`calculate_total_time`).  Pandas DataFrames are modelled as lists of
records with the exact columns the source reads or writes; time-of-day
cells are hour/minute/second triples; monetary-free volumes are exact
rationals.  Fallible operations (KeyError, IndexError, AttributeError)
return `Except`. -/

/-- Time-of-day value as read from the transit and sample tables: the
hour, minute and second components that the source feeds into
timedelta(hours=..., minutes=..., seconds=...). -/
structure TimeOfDay where
  hour : ℕ
  minute : ℕ
  second : ℕ
deriving DecidableEq

/-- Total seconds of the timedelta built from an hour/minute/second
triple, as in lines 68-72 and 116-120 of `src/app.py`. -/
def timedeltaSeconds (t : TimeOfDay) : ℕ :=
  t.hour * 3600 + t.minute * 60 + t.second

/-- One row of the pathology sample table (columns Index, Source Surgery,
Source Postcode, Date of Specimen, Time of Specimen). -/
structure SampleRow where
  index : Int
  sourceSurgery : String
  sourcePostcode : String
  dateOfSpecimen : String
  timeOfSpecimen : TimeOfDay
deriving DecidableEq

/-- Default sample row (used only as the `getD` default; theorems carry
hypotheses that keep lookups in bounds). -/
def sampleDefault : SampleRow :=
  ⟨0, "", "", "", ⟨0, 0, 0⟩⟩

/-- One row of the vehicle routes (transit) table: columns Postcode and
Time to Next Stop.  A missing duration cell (NaN in pandas) is `none`. -/
structure RouteRow where
  postcode : String
  timeToNextStop : Option TimeOfDay
deriving DecidableEq

/-- Default route row for `getD`. -/
def routeDefault : RouteRow :=
  ⟨"", none⟩

/-- One row of the courier rounds table: columns Round ID, Vehicle ID,
Time, Location, Postcode, Task, Volume. -/
structure CourierRow where
  roundId : String
  vehicleId : String
  time : TimeOfDay
  location : String
  postcode : String
  task : String
  volume : ℚ
deriving DecidableEq

/-- One row of the assigned journeys DataFrame built by `assign_journeys`
(lines 48-50 of `src/app.py`): columns Index, Source Surgery, Source
Postcode, Date of Specimen, Time of Specimen, Van Collecting, Time of
Collection.  Note there is no Time to Next Stop column. -/
structure JourneyRow where
  index : Int
  sourceSurgery : String
  sourcePostcode : String
  dateOfSpecimen : String
  timeOfSpecimen : TimeOfDay
  vanCollecting : String
  timeOfCollection : ℚ
deriving DecidableEq

/-- A cell value of the journeys DataFrame. -/
inductive CellValue where
  | int (i : Int)
  | str (s : String)
  | time (t : TimeOfDay)
  | rat (q : ℚ)
deriving DecidableEq

/-- Column access `row[col]` on a journeys-table row: `some` exactly for
the seven columns the dict of lines 48-50 creates, `none` (KeyError) for
every other label. -/
def JourneyRow.get (r : JourneyRow) (col : String) : Option CellValue :=
  if col == "Index" then some (CellValue.int r.index)
  else if col == "Source Surgery" then some (CellValue.str r.sourceSurgery)
  else if col == "Source Postcode" then some (CellValue.str r.sourcePostcode)
  else if col == "Date of Specimen" then some (CellValue.str r.dateOfSpecimen)
  else if col == "Time of Specimen" then some (CellValue.time r.timeOfSpecimen)
  else if col == "Van Collecting" then some (CellValue.str r.vanCollecting)
  else if col == "Time of Collection" then some (CellValue.rat r.timeOfCollection)
  else none

/-- Python-level failures the embedded code can raise.  `keyError` is a
missing column or missing graph key, `indexError` an out-of-range iloc,
`attributeError` an attribute access on a value that lacks it (NaN or
None).  `assignmentError` is the error name the specification uses for a
failed solve; the source never defines or raises it — the constructor
exists only so that statements about the specification wording can be
written down. -/
inductive PipeError where
  | keyError (col : String)
  | indexError
  | attributeError
  | assignmentError
deriving DecidableEq

/-- A networkx node key.  `G.add_edge` in lines 19-25 keys nodes by the
Postcode column, i.e. by strings; the distance callback of lines 32-35
queries the graph with the integer returned by manager.IndexToNode.  Both
key shapes therefore occur in the source and are modelled by one type. -/
inductive GKey where
  | str (s : String)
  | int (n : ℕ)
deriving DecidableEq

/-- A directed edge of the graph G with its weight attribute (the Time to
Next Stop cell of the originating row, possibly missing). -/
structure GEdge where
  src : GKey
  tgt : GKey
  weight : Option TimeOfDay
deriving DecidableEq

/-- Graph construction of lines 19-25 of `src/app.py`: for every row
except the last, add an edge from its postcode to the next row's
postcode, weighted by the row's Time to Next Stop value (carried as-is,
even when missing). -/
def buildGraphEdges (rows : List RouteRow) : List GEdge :=
  (rows.zip rows.tail).map fun p =>
    ⟨GKey.str p.1.postcode, GKey.str p.2.postcode, p.1.timeToNextStop⟩

/-- Adjacency lookup `G[a][b]['weight']` on the edge list: `some` with
the stored weight attribute when the edge exists, `none` (KeyError) when
it does not. -/
def nxGetEdgeWeight (edges : List GEdge) (a b : GKey) : Option (Option TimeOfDay) :=
  (edges.find? fun e => e.src == a && e.tgt == b).map fun e => e.weight

/-- The transit-cost callback of lines 32-35 of `src/app.py`: map both
solver indices to graph nodes via manager.IndexToNode (an integer), then
look up `G[from_node][to_node]['weight']`.  A `none` result is the
KeyError the source would raise. -/
def distance_callback (edges : List GEdge) (indexToNode : ℕ → ℕ)
    (fromIndex toIndex : ℕ) : Option (Option TimeOfDay) :=
  nxGetEdgeWeight edges (GKey.int (indexToNode fromIndex)) (GKey.int (indexToNode toIndex))

/-- The per-vehicle extraction loop of lines 52-76 of `src/app.py`, for
one van: walk the visited node sequence, skip the depot (node 0), and for
every other node read the sample row at position node-1 (IndexError when
out of range), read the route row at position node-1 (IndexError), read
the hour/minute/second of its Time to Next Stop (AttributeError when the
cell is missing), add those seconds to the running accumulator, and emit
a journey row whose Time of Collection is the accumulated seconds
converted to hours. -/
def extractVanWalk (sample : List SampleRow) (routes : List RouteRow) (van : ℕ) :
    List ℕ → ℕ → Except PipeError (List JourneyRow)
  | [], _ => Except.ok []
  | node :: rest, totalSec =>
    if node = 0 then
      extractVanWalk sample routes van rest totalSec
    else
      match sample.get? (node - 1) with
      | none => Except.error PipeError.indexError
      | some srow =>
        match routes.get? (node - 1) with
        | none => Except.error PipeError.indexError
        | some rrow =>
          match rrow.timeToNextStop with
          | none => Except.error PipeError.attributeError
          | some t =>
            (extractVanWalk sample routes van rest (totalSec + timedeltaSeconds t)).map
              fun js =>
                ⟨srow.index, srow.sourceSurgery, srow.sourcePostcode,
                 srow.dateOfSpecimen, srow.timeOfSpecimen,
                 ("Van ") ++ toString (van + 1),
                 ((totalSec + timedeltaSeconds t : ℕ) : ℚ) / 3600⟩ :: js

/-- The outer van loop of lines 52-76: process the per-van visited node
sequences in van order, each with the accumulator reset to zero, and
concatenate the emitted journey rows. -/
def extractAllVans (sample : List SampleRow) (routes : List RouteRow) :
    ℕ → List (List ℕ) → Except PipeError (List JourneyRow)
  | _, [] => Except.ok []
  | van, r :: rs =>
    match extractVanWalk sample routes van r 0 with
    | Except.error e => Except.error e
    | Except.ok a =>
      match extractAllVans sample routes (van + 1) rs with
      | Except.error e => Except.error e
      | Except.ok b => Except.ok (a ++ b)

/-- The post-solve part of `assign_journeys` (lines 44-81): when
SolveWithParameters found no solution it returns None and the first trip
through the extraction loop crashes at `solution.Value` with an
AttributeError (provided at least one van exists, so the loop body runs);
otherwise the routes of the solution are walked van by van. -/
def assign_journeys_extract (sample : List SampleRow) (routes : List RouteRow)
    (numVans : ℕ) (solution : Option (List (List ℕ))) :
    Except PipeError (List JourneyRow) :=
  match solution with
  | none => if numVans = 0 then Except.ok [] else Except.error PipeError.attributeError
  | some sol => extractAllVans sample routes 0 sol

/-- The Versapak container row appended at lines 98-106 of `src/app.py`:
round and vehicle identifiers of the matched courier entry, the time and
location fields of the journey, task Collect samples and volume 0.036. -/
def mkSampleEntry (c : CourierRow) (j : JourneyRow) : CourierRow :=
  ⟨c.roundId, c.vehicleId, j.timeOfSpecimen, j.sourceSurgery, j.sourcePostcode,
   ("Collect samples"), 36 / 1000⟩

/-- `update_courier_rounds` of lines 87-108 of `src/app.py`: iterate the
journeys in original order; for each, find the first courier row with the
same postcode (the `.iloc[0]` of line 91); if its task is Spare time or
Deliver/Collect post and its volume plus 0.036 does not exceed 5.3,
append the new Collect samples entry to the courier table (which later
journeys then see) and drop the journey; otherwise keep the journey. -/
def update_courier_rounds : List CourierRow → List JourneyRow →
    List CourierRow × List JourneyRow
  | courier, [] => (courier, [])
  | courier, j :: rest =>
    match List.find? (fun c => c.postcode == j.sourcePostcode) courier with
    | some c =>
      if (c.task == "Spare time" || c.task == "Deliver/Collect post")
          && decide (c.volume + 36 / 1000 ≤ (53 : ℚ) / 10) then
        update_courier_rounds (courier ++ [mkSampleEntry c j]) rest
      else
        ((update_courier_rounds courier rest).1,
         j :: (update_courier_rounds courier rest).2)
    | none =>
      ((update_courier_rounds courier rest).1,
       j :: (update_courier_rounds courier rest).2)

/-- `calculate_total_time` of lines 112-124 of `src/app.py`: iterate the
remaining journey rows and accumulate the Time to Next Stop cell of each
row as a timedelta.  The row access `route_row['Time to Next Stop']` is a
column lookup on the journeys table; a missing column is a KeyError and a
non-time cell would fail at the `.hour` access.  The second parameter is
accepted and never read, as in the source. -/
def calculate_total_time : List JourneyRow → List RouteRow → Except PipeError ℕ
  | [], _ => Except.ok 0
  | r :: rest, v =>
    match r.get ("Time to Next Stop") with
    | none => Except.error (PipeError.keyError ("Time to Next Stop"))
    | some (CellValue.time t) =>
      (calculate_total_time rest v).map fun s => timedeltaSeconds t + s
    | some _ => Except.error PipeError.attributeError

/-- Total volume of the courier entries of one round/vehicle. -/
def roundVolume (courier : List CourierRow) (rid vid : String) : ℚ :=
  ((courier.filter fun c => c.roundId == rid && c.vehicleId == vid).map
    fun c => c.volume).sum

/-- The stop part of an emitted journey row: the five sample-table fields
it carries. -/
def journeyStop (j : JourneyRow) : SampleRow :=
  ⟨j.index, j.sourceSurgery, j.sourcePostcode, j.dateOfSpecimen, j.timeOfSpecimen⟩

/-- Seconds of the duration recorded for the graph node numerically
preceding node k, i.e. the Time to Next Stop of route-table row k-1 —
the quantity the accumulator of lines 68-73 adds on arrival at node k. -/
def prevDurSeconds (routes : List RouteRow) (k : ℕ) : ℕ :=
  timedeltaSeconds (((routes.getD (k - 1) routeDefault).timeToNextStop).getD ⟨0, 0, 0⟩)

/-! ### Helper lemmas about `update_courier_rounds` -/

/-- Processing any journey list only ever appends to the courier table. -/
theorem update_courier_rounds_append :
    ∀ (journeys : List JourneyRow) (courier : List CourierRow),
      ∃ t, (update_courier_rounds courier journeys).1 = courier ++ t := by
  intro journeys
  induction journeys with
  | nil => intro courier; exact ⟨[], by simp [update_courier_rounds]⟩
  | cons j rest ih =>
    intro courier
    cases hfind : List.find? (fun c => c.postcode == j.sourcePostcode) courier with
    | none =>
      obtain ⟨t, ht⟩ := ih courier
      exact ⟨t, by simp [update_courier_rounds, hfind, ht]⟩
    | some c =>
      by_cases hcond : ((c.task == "Spare time" || c.task == "Deliver/Collect post")
          && decide (c.volume + 36 / 1000 ≤ (53 : ℚ) / 10)) = true
      · obtain ⟨t, ht⟩ := ih (courier ++ [mkSampleEntry c j])
        refine ⟨[mkSampleEntry c j] ++ t, ?_⟩
        simp only [update_courier_rounds, hfind, if_pos hcond]
        rw [ht, List.append_assoc]
      · obtain ⟨t, ht⟩ := ih courier
        refine ⟨t, ?_⟩
        simp only [update_courier_rounds, hfind, if_neg hcond]
        exact ht

/-- The surviving journeys are a sublist of the input journeys. -/
theorem update_courier_rounds_sublist :
    ∀ (journeys : List JourneyRow) (courier : List CourierRow),
      List.Sublist (update_courier_rounds courier journeys).2 journeys := by
  intro journeys
  induction journeys with
  | nil => intro courier; simp [update_courier_rounds]
  | cons j rest ih =>
    intro courier
    cases hfind : List.find? (fun c => c.postcode == j.sourcePostcode) courier with
    | none =>
      simp only [update_courier_rounds, hfind]
      exact List.Sublist.cons₂ j (ih courier)
    | some c =>
      by_cases hcond : ((c.task == "Spare time" || c.task == "Deliver/Collect post")
          && decide (c.volume + 36 / 1000 ≤ (53 : ℚ) / 10)) = true
      · simp only [update_courier_rounds, hfind, if_pos hcond]
        exact List.Sublist.cons j (ih (courier ++ [mkSampleEntry c j]))
      · simp only [update_courier_rounds, hfind, if_neg hcond]
        exact List.Sublist.cons₂ j (ih courier)

/-- Every entry of the updated courier table has the postcode of some
entry of the original table (new rows copy the postcode of a journey that
matched an existing row). -/
theorem update_courier_rounds_postcodes :
    ∀ (journeys : List JourneyRow) (courier : List CourierRow),
      ∀ e ∈ (update_courier_rounds courier journeys).1,
        ∃ c ∈ courier, c.postcode = e.postcode := by
  intro journeys
  induction journeys with
  | nil =>
    intro courier e he
    simp only [update_courier_rounds] at he
    exact ⟨e, he, rfl⟩
  | cons j rest ih =>
    intro courier e he
    cases hfind : List.find? (fun c => c.postcode == j.sourcePostcode) courier with
    | none =>
      simp only [update_courier_rounds, hfind] at he
      exact ih courier e he
    | some c =>
      have hcmem : c ∈ courier := List.mem_of_find?_eq_some hfind
      have hcpc : c.postcode = j.sourcePostcode := by
        have := List.find?_some hfind
        simpa [beq_iff_eq] using this
      by_cases hcond : ((c.task == "Spare time" || c.task == "Deliver/Collect post")
          && decide (c.volume + 36 / 1000 ≤ (53 : ℚ) / 10)) = true
      · simp only [update_courier_rounds, hfind, if_pos hcond] at he
        obtain ⟨c', hc', hpc⟩ := ih (courier ++ [mkSampleEntry c j]) e he
        rcases List.mem_append.mp hc' with h | h
        · exact ⟨c', h, hpc⟩
        · have hc'eq : c' = mkSampleEntry c j := by simpa using h
          refine ⟨c, hcmem, ?_⟩
          rw [← hpc, hc'eq]
          simpa [mkSampleEntry] using hcpc
      · simp only [update_courier_rounds, hfind, if_neg hcond] at he
        exact ih courier e he

/-- Postcode lookups on the updated courier table agree with lookups on
the original table: the first match by original order never changes. -/
theorem update_courier_rounds_find? :
    ∀ (journeys : List JourneyRow) (courier : List CourierRow) (q : String),
      List.find? (fun c => c.postcode == q) (update_courier_rounds courier journeys).1
        = List.find? (fun c => c.postcode == q) courier := by
  intro journeys courier q
  obtain ⟨t, ht⟩ := update_courier_rounds_append journeys courier
  rw [ht, List.find?_append]
  cases hf : List.find? (fun c => c.postcode == q) courier with
  | some c => rfl
  | none =>
    rw [Option.none_or, List.find?_eq_none]
    intro x hx
    have hxr : x ∈ (update_courier_rounds courier journeys).1 := by
      rw [ht]; exact List.mem_append_right _ hx
    obtain ⟨c, hc, hpc⟩ := update_courier_rounds_postcodes journeys courier x hxr
    have hnc := List.find?_eq_none.mp hf c hc
    simp only [beq_iff_eq] at hnc ⊢
    rw [← hpc]
    exact hnc

/-- The boolean consolidation test of lines 93-96 as the proposition in
the specification wording. -/
theorem consolidation_cond_iff (c : CourierRow) :
    (((c.task == "Spare time" || c.task == "Deliver/Collect post")
        && decide (c.volume + 36 / 1000 ≤ (53 : ℚ) / 10)) = true)
      ↔ ((c.task = "Spare time" ∨ c.task = "Deliver/Collect post") ∧
          c.volume + 36 / 1000 ≤ (53 : ℚ) / 10) := by
  simp [Bool.and_eq_true, Bool.or_eq_true, beq_iff_eq, decide_eq_true_eq]

/-- `find?` resolves to the first matching entry in original order. -/
theorem find?_first_match (pre post : List CourierRow) (c : CourierRow) (q : String)
    (hpre : ∀ c' ∈ pre, c'.postcode ≠ q) (hc : c.postcode = q) :
    List.find? (fun x => x.postcode == q) (pre ++ c :: post) = some c := by
  rw [List.find?_append]
  have h1 : List.find? (fun x => x.postcode == q) pre = none := by
    rw [List.find?_eq_none]
    intro x hx
    simpa [beq_iff_eq] using hpre x hx
  rw [h1, Option.none_or]
  exact List.find?_cons_of_pos _ (by simpa [beq_iff_eq] using hc)

/-! ### Claim theorems about consolidation and aggregation -/

/-- Claim C1 (evidence of a code bug): the capacity check of line 96
compares only the volume of the first matched entry against 5.3 and each
appended Versapak row carries volume 0.036 while the matched entry is
left unchanged, so several journeys with the same postcode are all
consolidated into the same round and drive its total volume above the
capacity.  Concretely, one Spare time entry of round R1/vehicle V1 at
volume 5.2 plus three matching journeys ends with round total
5.308 > 5.3, violating the stated invariant. -/
theorem claim1_round_capacity_overfill :
    roundVolume
      (update_courier_rounds
        [⟨"R1", "V1", ⟨8, 0, 0⟩, "Lab", "P1", "Spare time", 26 / 5⟩]
        [⟨1, "Surg", "P1", "2024-01-06", ⟨9, 0, 0⟩, "Van 1", 0⟩,
         ⟨2, "Surg", "P1", "2024-01-06", ⟨9, 30, 0⟩, "Van 1", 0⟩,
         ⟨3, "Surg", "P1", "2024-01-06", ⟨10, 0, 0⟩, "Van 1", 0⟩]).1
      ("R1") ("V1") = 1327 / 250 ∧
    ¬ (roundVolume
        (update_courier_rounds
          [⟨"R1", "V1", ⟨8, 0, 0⟩, "Lab", "P1", "Spare time", 26 / 5⟩]
          [⟨1, "Surg", "P1", "2024-01-06", ⟨9, 0, 0⟩, "Van 1", 0⟩,
           ⟨2, "Surg", "P1", "2024-01-06", ⟨9, 30, 0⟩, "Van 1", 0⟩,
           ⟨3, "Surg", "P1", "2024-01-06", ⟨10, 0, 0⟩, "Van 1", 0⟩]).1
        ("R1") ("V1") ≤ 53 / 10) := by
  constructor
  · norm_num [update_courier_rounds, mkSampleEntry, roundVolume, List.find?]
  · norm_num [update_courier_rounds, mkSampleEntry, roundVolume, List.find?]

/-- Claim C2 (evidence of a code bug): the journeys DataFrame built by
`assign_journeys` has no Time to Next Stop column, so the row access of
line 117 raises KeyError on the first row of any non-empty
post-consolidation journey set, instead of returning the summed
durations the specification describes. -/
theorem claim2_total_time_key_error (r : JourneyRow) (rest : List JourneyRow)
    (routes : List RouteRow) :
    calculate_total_time (r :: rest) routes
      = Except.error (PipeError.keyError ("Time to Next Stop")) := rfl

/-- Claim C3: for a journey whose postcode first matches courier entry c
(first by original order), if the task of c is Spare time or
Deliver/Collect post and its volume plus 0.036 stays within 5.3 then the
new Collect samples entry with volume 0.036, the time and location
fields of the journey and the round/vehicle identifiers of c is appended
and the journey is removed; otherwise the journey is kept unchanged.  On
an empty courier table both outputs equal the inputs, and postcode
lookups on the updated table always resolve exactly as on the original
table (first match in original order wins throughout the run). -/
theorem claim3_update_courier_rounds_behavior :
    (∀ journeys : List JourneyRow, update_courier_rounds [] journeys = ([], journeys)) ∧
    (∀ (pre post : List CourierRow) (c : CourierRow) (j : JourneyRow) (rest : List JourneyRow),
      (∀ c' ∈ pre, c'.postcode ≠ j.sourcePostcode) →
      c.postcode = j.sourcePostcode →
      (((c.task = "Spare time" ∨ c.task = "Deliver/Collect post") ∧
          c.volume + 36 / 1000 ≤ (53 : ℚ) / 10) →
        update_courier_rounds (pre ++ c :: post) (j :: rest)
          = update_courier_rounds
              ((pre ++ c :: post) ++
                [⟨c.roundId, c.vehicleId, j.timeOfSpecimen, j.sourceSurgery,
                  j.sourcePostcode, ("Collect samples"), 36 / 1000⟩]) rest) ∧
      (¬ ((c.task = "Spare time" ∨ c.task = "Deliver/Collect post") ∧
          c.volume + 36 / 1000 ≤ (53 : ℚ) / 10) →
        update_courier_rounds (pre ++ c :: post) (j :: rest)
          = ((update_courier_rounds (pre ++ c :: post) rest).1,
             j :: (update_courier_rounds (pre ++ c :: post) rest).2))) ∧
    (∀ (courier : List CourierRow) (journeys : List JourneyRow) (q : String),
      List.find? (fun c => c.postcode == q) (update_courier_rounds courier journeys).1
        = List.find? (fun c => c.postcode == q) courier) := by
  refine ⟨?_, ?_, fun courier journeys q => update_courier_rounds_find? journeys courier q⟩
  · intro journeys
    induction journeys with
    | nil => rfl
    | cons j rest ih => simp [update_courier_rounds, ih]
  · intro pre post c j rest hpre hc
    have hfind : List.find? (fun x => x.postcode == j.sourcePostcode) (pre ++ c :: post)
        = some c := find?_first_match pre post c j.sourcePostcode hpre hc
    constructor
    · intro hcond
      simp only [update_courier_rounds, hfind,
        if_pos ((consolidation_cond_iff c).mpr hcond)]
      rfl
    · intro hcond
      simp only [update_courier_rounds, hfind,
        if_neg (fun hb => hcond ((consolidation_cond_iff c).mp hb))]

/-- Witness for C3: the consolidation scenario of the specification — a
single journey matching a Spare time entry with volume 5 is folded in:
the Collect samples row is appended and the journey list is emptied. -/
theorem claim3_witness :
    update_courier_rounds
      [⟨"R9", "V9", ⟨7, 0, 0⟩, "Depot", "PX", "Spare time", 5⟩]
      [⟨7, "SurgX", "PX", "2024-02-02", ⟨11, 0, 0⟩, "Van 2", 1 / 2⟩]
    = ([⟨"R9", "V9", ⟨7, 0, 0⟩, "Depot", "PX", "Spare time", 5⟩,
        ⟨"R9", "V9", ⟨11, 0, 0⟩, "SurgX", "PX", "Collect samples", 36 / 1000⟩], []) := by
  have h := (claim3_update_courier_rounds_behavior.2.1 [] []
      ⟨"R9", "V9", ⟨7, 0, 0⟩, "Depot", "PX", "Spare time", 5⟩
      ⟨7, "SurgX", "PX", "2024-02-02", ⟨11, 0, 0⟩, "Van 2", 1 / 2⟩ []
      (by simp) rfl).1 ⟨Or.inl rfl, by norm_num⟩
  simpa [update_courier_rounds] using h

/-- Claim C10: `update_courier_rounds` never modifies or reorders the
pre-existing courier entries (the input table is an initial segment of
the output, new entries strictly after it), and the surviving journeys
are a sublist of the input journeys — same field values, same relative
order. -/
theorem claim10_frame_preservation (courier : List CourierRow) (journeys : List JourneyRow) :
    (∃ appended, (update_courier_rounds courier journeys).1 = courier ++ appended) ∧
    List.Sublist (update_courier_rounds courier journeys).2 journeys :=
  ⟨update_courier_rounds_append journeys courier,
   update_courier_rounds_sublist journeys courier⟩

/-! ### Claim theorems about the graph and the solver interface -/

/-- Claim C5 (evidence of a code bug): the transit-cost callback has no
fallback at all.  The graph built at lines 19-25 keys its nodes by
postcode strings while the callback of lines 32-35 queries it with the
integers returned by manager.IndexToNode, so for EVERY pair of route
positions the lookup `G[from_node][to_node]` finds no entry and raises
KeyError — in particular no pair of non-adjacent nodes ever receives a
defined fallback cost. -/
theorem claim5_distance_callback_undefined (rows : List RouteRow)
    (indexToNode : ℕ → ℕ) (fromIndex toIndex : ℕ) :
    distance_callback (buildGraphEdges rows) indexToNode fromIndex toIndex = none := by
  unfold distance_callback nxGetEdgeWeight
  rw [Option.map_eq_none', List.find?_eq_none]
  intro e he
  obtain ⟨p, _, rfl⟩ := List.mem_map.mp he
  have hb : (GKey.str p.1.postcode == GKey.int (indexToNode fromIndex)) = false := rfl
  simp [hb]

/-- Helper: unfolding of the graph construction on two leading rows. -/
theorem buildGraphEdges_cons (a b : RouteRow) (t : List RouteRow) :
    buildGraphEdges (a :: b :: t)
      = ⟨GKey.str a.postcode, GKey.str b.postcode, a.timeToNextStop⟩ :: buildGraphEdges (b :: t) := rfl

/-- Claim C8 counterexample: a transit table whose first (non-terminal)
stop lacks its successor duration.  Graph construction does not fail —
no DataError exists anywhere in the code — it silently stores the
missing duration as the weight of the edge and the run proceeds towards
the solve. -/
theorem claim8_counterexample :
    buildGraphEdges [⟨"A", none⟩, ⟨"B", some ⟨0, 10, 0⟩⟩]
      = [⟨GKey.str ("A"), GKey.str ("B"), none⟩] := rfl

/-- Claim C8 amended: the pipeline performs no validation of successor
durations.  Graph construction succeeds on every input, producing
exactly one edge per consecutive pair of rows whose weight is the first
row's Time to Next Stop value carried as-is — even when that value is
missing — and no error of any kind is raised before the solve attempt. -/
theorem claim8_no_data_error (rows : List RouteRow) :
    (buildGraphEdges rows).length = rows.length - 1 ∧
    ∀ i : ℕ, i + 1 < rows.length →
      (buildGraphEdges rows).get? i
        = some ⟨GKey.str ((rows.getD i routeDefault).postcode),
                GKey.str ((rows.getD (i + 1) routeDefault).postcode),
                (rows.getD i routeDefault).timeToNextStop⟩ := by
  constructor
  · simp only [buildGraphEdges, List.length_map, List.length_zip, List.length_tail]
    omega
  · induction rows with
    | nil => intro i h; simp at h
    | cons a t iht =>
      intro i h
      cases t with
      | nil => simp at h
      | cons b t2 =>
        rw [buildGraphEdges_cons]
        cases i with
        | zero => simp
        | succ i2 =>
          rw [List.get?_cons_succ]
          have h2 : i2 + 1 < (b :: t2).length := by
            simp only [List.length_cons] at h ⊢
            omega
          rw [iht i2 h2]
          simp [List.getD_cons_succ]

/-- Witness for C8 amended: on a concrete three-row table with a missing
first duration, the second edge is B -> C weighted by the duration of
row B. -/
theorem claim8_witness :
    (buildGraphEdges
      [⟨"A", none⟩, ⟨"B", some ⟨0, 10, 0⟩⟩, ⟨"C", some ⟨0, 5, 0⟩⟩]).get? 1
      = some ⟨GKey.str ("B"), GKey.str ("C"), some ⟨0, 10, 0⟩⟩ := by
  have h := (claim8_no_data_error
      [⟨"A", none⟩, ⟨"B", some ⟨0, 10, 0⟩⟩, ⟨"C", some ⟨0, 5, 0⟩⟩]).2 1 (by norm_num)
  simpa using h

/-- Claim C9 counterexample: when the solver returns no solution
(None), the code does fail and emits nothing, but with an unhandled
AttributeError from `solution.Value` — not with any AssignmentError,
which the source never defines. -/
theorem claim9_counterexample :
    assign_journeys_extract [] [] 1 none = Except.error PipeError.attributeError ∧
    assign_journeys_extract [] [] 1 none ≠ Except.error PipeError.assignmentError :=
  ⟨rfl, fun h => PipeError.noConfusion (Except.error.inj h)⟩

/-- Claim C9 amended: for every input with at least one van, a solve
that produces no solution makes the extraction crash with an unhandled
AttributeError (attribute access on the absent solution object); the
error carries no journey rows, so no partial journeys are emitted. -/
theorem claim9_attribute_error_on_no_solution (sample : List SampleRow)
    (routes : List RouteRow) (numVans : ℕ) (h : 1 ≤ numVans) :
    assign_journeys_extract sample routes numVans none
      = Except.error PipeError.attributeError := by
  unfold assign_journeys_extract
  rw [if_neg (by omega)]

/-- Witness for C9 amended at a concrete input. -/
theorem claim9_witness :
    assign_journeys_extract [] [] 3 none = Except.error PipeError.attributeError :=
  claim9_attribute_error_on_no_solution [] [] 3 (by norm_num)

/-! ### Helper lemmas about the extraction loop -/

/-- Full characterisation of one van's walk: when it succeeds, the
emitted journeys carry the sample rows of the visited non-depot nodes in
visit order, their collection times are the running partial sums (from
the initial accumulator) of the durations recorded for the numerically
previous graph node, divided into hours, and there is exactly one
journey per visited non-depot node. -/
theorem extractVanWalk_spec (sample : List SampleRow) (routes : List RouteRow) (van : ℕ) :
    ∀ (nodes : List ℕ) (acc : ℕ) (js : List JourneyRow),
      extractVanWalk sample routes van nodes acc = Except.ok js →
      js.map journeyStop
        = ((nodes.filter fun k => k ≠ 0).map fun k => sample.getD (k - 1) sampleDefault) ∧
      js.map JourneyRow.timeOfCollection
        = ((List.range js.length).map fun i =>
            ((acc + (((nodes.filter fun k => k ≠ 0).take (i + 1)).map
                (prevDurSeconds routes)).sum : ℕ) : ℚ) / 3600) ∧
      js.length = (nodes.filter fun k => k ≠ 0).length := by
  intro nodes
  induction nodes with
  | nil =>
    intro acc js h
    simp only [extractVanWalk] at h
    cases h
    simp
  | cons node rest ih =>
    intro acc js h
    by_cases h0 : node = 0
    · subst h0
      simp only [extractVanWalk, if_pos rfl] at h
      have hf : List.filter (fun k => k ≠ 0) (0 :: rest)
          = List.filter (fun k => k ≠ 0) rest := by simp
      rw [hf]
      exact ih acc js h
    · simp only [extractVanWalk, if_neg h0] at h
      cases hs : sample.get? (node - 1) with
      | none => simp only [hs] at h; exact Except.noConfusion h
      | some srow =>
        simp only [hs] at h
        cases hr : routes.get? (node - 1) with
        | none => simp only [hr] at h; exact Except.noConfusion h
        | some rrow =>
          simp only [hr] at h
          cases ht : rrow.timeToNextStop with
          | none => simp only [ht] at h; exact Except.noConfusion h
          | some t =>
            simp only [ht] at h
            cases hrec : extractVanWalk sample routes van rest (acc + timedeltaSeconds t) with
            | error e => simp only [hrec, Except.map] at h; exact Except.noConfusion h
            | ok tail =>
              simp only [hrec, Except.map] at h
              injection h with hjs
              subst hjs
              obtain ⟨ih1, ih2, ih3⟩ := ih (acc + timedeltaSeconds t) tail hrec
              have hfilter : List.filter (fun k => decide (k ≠ 0)) (node :: rest)
                  = node :: List.filter (fun k => decide (k ≠ 0)) rest := by
                simp [h0]
              have hprev : prevDurSeconds routes node = timedeltaSeconds t := by
                unfold prevDurSeconds
                rw [List.getD_eq_get?, hr]
                simp [ht]
              have hsrow : sample.getD (node - 1) sampleDefault = srow := by
                rw [List.getD_eq_get?, hs]
                rfl
              refine ⟨?_, ?_, ?_⟩
              · rw [hfilter, List.map_cons, List.map_cons, ih1, hsrow]
                rfl
              · rw [hfilter, List.map_cons, List.length_cons, List.range_succ_eq_map,
                  List.map_cons, List.map_map, ih2]
                simp only [List.cons.injEq]
                constructor
                · simp [hprev]
                · apply List.map_congr_left
                  intro i _
                  simp only [Function.comp, Nat.succ_eq_add_one, List.take_succ_cons,
                    List.map_cons, List.sum_cons, hprev]
                  congr 1
                  push_cast
                  ring
              · rw [List.length_cons, hfilter, List.length_cons, ih3]

/-- The stop rows carried by the journeys of a full multi-van
extraction, in emission order: one per visited non-depot node of the
concatenated solution routes. -/
theorem extractAllVans_stops (sample : List SampleRow) (routes : List RouteRow) :
    ∀ (sol : List (List ℕ)) (van : ℕ) (js : List JourneyRow),
      extractAllVans sample routes van sol = Except.ok js →
      js.map journeyStop
        = ((sol.join.filter fun k => k ≠ 0).map fun k => sample.getD (k - 1) sampleDefault) := by
  intro sol
  induction sol with
  | nil =>
    intro van js h
    simp only [extractAllVans] at h
    cases h
    simp
  | cons r rs ih =>
    intro van js h
    simp only [extractAllVans] at h
    cases h1 : extractVanWalk sample routes van r 0 with
    | error e => simp only [h1] at h; exact Except.noConfusion h
    | ok a =>
      simp only [h1] at h
      cases h2 : extractAllVans sample routes (van + 1) rs with
      | error e => simp only [h2] at h; exact Except.noConfusion h
      | ok b =>
        simp only [h2] at h
        injection h with hjs
        subst hjs
        rw [List.map_append, (extractVanWalk_spec sample routes van r 0 a h1).1,
          ih (van + 1) b h2]
        simp [List.join, List.filter_append]

/-- Reading every position of a list through `getD` reproduces the
list. -/
theorem range_map_getD (l : List SampleRow) :
    (List.range l.length).map (fun i => l.getD i sampleDefault) = l := by
  induction l with
  | nil => simp
  | cons a tl ih =>
    rw [List.length_cons, List.range_succ_eq_map, List.map_cons, List.map_map]
    refine congrArg (a :: ·) ?_
    rw [show ((fun i => (a :: tl).getD i sampleDefault) ∘ Nat.succ)
        = fun i => tl.getD i sampleDefault from rfl]
    exact ih

/-- Same, indexed from 1 with the off-by-one read of the extraction. -/
theorem range'_map_getD (l : List SampleRow) :
    (List.range' 1 l.length).map (fun k => l.getD (k - 1) sampleDefault) = l := by
  rw [List.range'_eq_map_range, List.map_map]
  have h : ∀ i ∈ List.range l.length,
      ((fun k => l.getD (k - 1) sampleDefault) ∘ (1 + ·)) i
        = (fun i => l.getD i sampleDefault) i := by
    intro i _
    simp only [Function.comp]
    congr 1
    omega
  rw [List.map_congr_left h]
  exact range_map_getD l

/-- Claim C4: whenever the solution walked by the extraction loop visits
every non-depot node exactly once (the routing-model contract of the
external OR-Tools solver: the multiset of non-depot nodes over all van
routes is exactly 1..N), the emitted journeys carry every sample row
exactly once — no stop duplicated, none omitted. -/
theorem claim4_stops_covered_exactly_once (sample : List SampleRow) (routes : List RouteRow)
    (sol : List (List ℕ)) (js : List JourneyRow)
    (hsol : (sol.join.filter fun k => k ≠ 0).Perm (List.range' 1 sample.length))
    (hok : extractAllVans sample routes 0 sol = Except.ok js) :
    (js.map journeyStop).Perm sample := by
  rw [extractAllVans_stops sample routes sol 0 js hok]
  have h2 := hsol.map fun k => sample.getD (k - 1) sampleDefault
  rw [range'_map_getD sample] at h2
  exact h2

/-- Witness for C4: two stops, two vans, solution routes [0,1] and
[0,2]; each stop is collected exactly once. -/
theorem claim4_witness :
    (([⟨1, "SurgA", "PA", "d", ⟨9, 0, 0⟩, "Van 1", 1 / 6⟩,
       ⟨2, "SurgB", "PB", "d", ⟨10, 0, 0⟩, "Van 2", 1 / 4⟩] : List JourneyRow).map
        journeyStop).Perm
      [⟨1, "SurgA", "PA", "d", ⟨9, 0, 0⟩⟩, ⟨2, "SurgB", "PB", "d", ⟨10, 0, 0⟩⟩] :=
  claim4_stops_covered_exactly_once
    [⟨1, "SurgA", "PA", "d", ⟨9, 0, 0⟩⟩, ⟨2, "SurgB", "PB", "d", ⟨10, 0, 0⟩⟩]
    [⟨"P0", some ⟨0, 10, 0⟩⟩, ⟨"PA", some ⟨0, 15, 0⟩⟩, ⟨"PB", none⟩]
    [[0, 1], [0, 2]]
    [⟨1, "SurgA", "PA", "d", ⟨9, 0, 0⟩, "Van 1", 1 / 6⟩,
     ⟨2, "SurgB", "PB", "d", ⟨10, 0, 0⟩, "Van 2", 1 / 4⟩]
    (by decide)
    (by norm_num [extractAllVans, extractVanWalk, timedeltaSeconds]; rfl)

/-- Prefix sums of a list of naturals are monotone. -/
theorem sum_take_mono : ∀ (l : List ℕ) (m n : ℕ), m ≤ n →
    (l.take m).sum ≤ (l.take n).sum := by
  intro l
  induction l with
  | nil => intro m n _; simp
  | cons a tl ih =>
    intro m n hmn
    cases m with
    | zero => simp
    | succ m2 =>
      cases n with
      | zero => omega
      | succ n2 =>
        simp only [List.take_succ_cons, List.sum_cons]
        exact Nat.add_le_add_left (ih m2 n2 (Nat.le_of_succ_le_succ hmn)) a

/-- Claim C6: within one van's walk (accumulator starting at zero at the
depot start), the collection times of the emitted journeys are
monotonically non-decreasing in visit order. -/
theorem claim6_collection_times_monotone (sample : List SampleRow) (routes : List RouteRow)
    (van : ℕ) (nodes : List ℕ) (js : List JourneyRow)
    (hok : extractVanWalk sample routes van nodes 0 = Except.ok js) :
    List.Chain' (fun a b => a ≤ b) (js.map JourneyRow.timeOfCollection) := by
  obtain ⟨-, h2, -⟩ := extractVanWalk_spec sample routes van nodes 0 js hok
  rw [h2, List.chain'_map]
  cases hlen : js.length with
  | zero => simp
  | succ n =>
    rw [List.chain'_range_succ]
    intro m _
    have hmono := sum_take_mono
      (((nodes.filter fun k => k ≠ 0)).map (prevDurSeconds routes))
      (m + 1) (m + 1 + 1) (by omega)
    rw [← List.map_take, ← List.map_take] at hmono
    rw [div_le_div_right (by norm_num : (0 : ℚ) < 3600)]
    exact_mod_cast Nat.add_le_add_left hmono 0

/-- Witness for C6: a concrete walk over three nodes produces collection
times 1/6 then 5/12, a non-decreasing chain. -/
theorem claim6_witness :
    List.Chain' (fun a b => a ≤ b)
      (([⟨1, "SurgA", "PA", "d", ⟨9, 0, 0⟩, "Van 1", 1 / 6⟩,
         ⟨2, "SurgB", "PB", "d", ⟨10, 0, 0⟩, "Van 1", 5 / 12⟩] : List JourneyRow).map
        JourneyRow.timeOfCollection) :=
  claim6_collection_times_monotone
    [⟨1, "SurgA", "PA", "d", ⟨9, 0, 0⟩⟩, ⟨2, "SurgB", "PB", "d", ⟨10, 0, 0⟩⟩]
    [⟨"P0", some ⟨0, 10, 0⟩⟩, ⟨"PA", some ⟨0, 15, 0⟩⟩, ⟨"PB", none⟩]
    0 [0, 1, 2]
    [⟨1, "SurgA", "PA", "d", ⟨9, 0, 0⟩, "Van 1", 1 / 6⟩,
     ⟨2, "SurgB", "PB", "d", ⟨10, 0, 0⟩, "Van 1", 5 / 12⟩]
    (by norm_num [extractVanWalk, timedeltaSeconds]; rfl)

/-- Claim C7: one journey per visited non-depot node; the accumulator
starts at zero at the depot start of the van and, on arrival at node k,
adds the Time to Next Stop recorded for the numerically previous graph
node (route-table row k-1, the row of the stop just departed in chain
order), the i-th collection time being the i-th partial sum reported in
hours (seconds of the hour/minute/second triple divided by 3600). -/
theorem claim7_accumulator_partial_sums (sample : List SampleRow) (routes : List RouteRow)
    (van : ℕ) (nodes : List ℕ) (js : List JourneyRow)
    (hok : extractVanWalk sample routes van nodes 0 = Except.ok js) :
    js.length = (nodes.filter fun k => k ≠ 0).length ∧
    js.map JourneyRow.timeOfCollection
      = ((List.range js.length).map fun i =>
          (((((nodes.filter fun k => k ≠ 0).take (i + 1)).map
              (prevDurSeconds routes)).sum : ℕ) : ℚ) / 3600) := by
  obtain ⟨-, h2, h3⟩ := extractVanWalk_spec sample routes van nodes 0 js hok
  refine ⟨h3, ?_⟩
  rw [h2]
  apply List.map_congr_left
  intro i _
  rw [Nat.zero_add]

/-- Witness for C7: on the concrete walk over nodes [0, 1, 2] the
collection times are exactly the partial sums 600/3600 and
(600+900)/3600 of the durations recorded for rows 0 and 1. -/
theorem claim7_witness :
    (([⟨1, "SurgA", "PA", "d", ⟨9, 0, 0⟩, "Van 1", 1 / 6⟩,
       ⟨2, "SurgB", "PB", "d", ⟨10, 0, 0⟩, "Van 1", 5 / 12⟩] : List JourneyRow).length = 2) ∧
    (([⟨1, "SurgA", "PA", "d", ⟨9, 0, 0⟩, "Van 1", 1 / 6⟩,
       ⟨2, "SurgB", "PB", "d", ⟨10, 0, 0⟩, "Van 1", 5 / 12⟩] : List JourneyRow).map
        JourneyRow.timeOfCollection
      = [1 / 6, 5 / 12]) := by
  have h := claim7_accumulator_partial_sums
    [⟨1, "SurgA", "PA", "d", ⟨9, 0, 0⟩⟩, ⟨2, "SurgB", "PB", "d", ⟨10, 0, 0⟩⟩]
    [⟨"P0", some ⟨0, 10, 0⟩⟩, ⟨"PA", some ⟨0, 15, 0⟩⟩, ⟨"PB", none⟩]
    0 [0, 1, 2]
    [⟨1, "SurgA", "PA", "d", ⟨9, 0, 0⟩, "Van 1", 1 / 6⟩,
     ⟨2, "SurgB", "PB", "d", ⟨10, 0, 0⟩, "Van 1", 5 / 12⟩]
    (by norm_num [extractVanWalk, timedeltaSeconds]; rfl)
  obtain ⟨h1, h2⟩ := h
  refine ⟨by simpa using h1, ?_⟩
  rw [h2]
  norm_num [List.range_succ, prevDurSeconds, routeDefault, timedeltaSeconds]

end MediRouteSaver
